import Mathlib

/-!
Shallow embedding of the host bootstrap reconciliation engine
(`agent/reconciler/host_reconciler.go`) of the
cluster-api-provider-bringyourownhost repository.

External collaborators (the Kubernetes client, the command runner, the
cloud-init script executor, the kube-vip address manager, the filesystem
holding the sentinel file, and the final patch write) are modelled as an
`Env` of oracle outcomes; each engine function additionally returns the
list of external calls it performed, so that "invoked exactly once" and
"performs zero external calls" become statements about that trace.
-/

namespace Byoh

/-- Severity of a condition, mirroring `clusterv1.ConditionSeverity`. -/
inductive ConditionSeverity where
  | error
  | warning
  | info
deriving DecidableEq, Repr

/-- One entry of the `conditions` list.  The engine touches a single
condition (`K8sNodeBootstrapSucceeded`), so the host carries it as an
`Option Condition`. -/
structure Condition where
  status : Bool
  reason : String
  severity : ConditionSeverity
  message : String
deriving DecidableEq, Repr

/-- `Spec.BootstrapSecret`: name and namespace of the bootstrap data
secret (`corev1.ObjectReference` restricted to the two fields read). -/
structure SecretRef where
  name : String
  ns : String
deriving DecidableEq, Repr

/-- The `ByoHost` resource, restricted to the fields the reconciler reads
or writes: `Status.MachineRef`, `Spec.BootstrapSecret`, labels,
annotations, the deletion timestamp, and the
`K8sNodeBootstrapSucceeded` condition. -/
structure ByoHost where
  machineRef : Option String
  bootstrapSecret : Option SecretRef
  labels : List (String × String)
  annotations : List (String × String)
  deletionTimestamp : Bool
  condition : Option Condition
deriving DecidableEq, Repr

/-- Go map read `m[k]`: first binding for `k`, if any. -/
def lookupKey (m : List (String × String)) (k : String) : Option String :=
  match m with
  | [] => none
  | (k', v) :: rest => if k' = k then some v else lookupKey rest k

/-- Go map `delete(m, k)`. -/
def deleteKey (m : List (String × String)) (k : String) : List (String × String) :=
  m.filter (fun kv => kv.1 ≠ k)

/-- Modelled from the spec: key of the cleanup marker
(`infrastructurev1alpha4.HostCleanupAnnotation`, declared in the apis
package, which is outside the provided sources); only its identity as a
distinct map key matters here. -/
def HostCleanupAnnotation : String := "byoh.infrastructure.cluster.x-k8s.io/unregistering"

/-- Modelled from the spec: key of the reserved network address
(`infrastructurev1alpha4.EndPointIPAnnotation`, declared outside the
provided sources). -/
def EndPointIPAnnotation : String := "byoh.infrastructure.cluster.x-k8s.io/endpointip"

/-- Modelled from the spec: key of the owning cluster's Kubernetes
version (`infrastructurev1alpha4.ClusterVersionAnnotation`, declared
outside the provided sources). -/
def ClusterVersionAnnotation : String := "byoh.infrastructure.cluster.x-k8s.io/k8sversion"

/-- Modelled from the spec: the cluster-name label key
(`v1alpha4.ClusterLabelName` of cluster-api). -/
def ClusterLabelName : String := "cluster.x-k8s.io/cluster-name"

/-- Modelled from the spec: reason `WaitingForClaim`
(`infrastructurev1alpha4.WaitingForMachineRefReason`). -/
def WaitingForMachineRefReason : String := "WaitingForClaim"

/-- Modelled from the spec: reason `WaitingForBootstrapSecret`
(`infrastructurev1alpha4.BootstrapDataSecretUnavailableReason`). -/
def BootstrapDataSecretUnavailableReason : String := "WaitingForBootstrapSecret"

/-- Modelled from the spec: reason `BootstrapExecutionFailed`
(`infrastructurev1alpha4.CloudInitExecutionFailedReason`). -/
def CloudInitExecutionFailedReason : String := "BootstrapExecutionFailed"

/-- Modelled from the spec: reason `NodeAbsent`
(`infrastructurev1alpha4.K8sNodeAbsentReason`). -/
def K8sNodeAbsentReason : String := "NodeAbsent"

/-- `bootstrapSentinelFile` constant of the reconciler. -/
def bootstrapSentinelFile : String := "/run/cluster-api/bootstrap-success.complete"

/-- `KubeadmResetCommand` constant of the reconciler. -/
def KubeadmResetCommand : String := "kubeadm reset --force"

/-- `conditions.MarkFalse` restricted to the single condition of
interest: overwrite it with status `false` and the given reason,
severity and message. -/
def markFalse (h : ByoHost) (reason : String) (severity : ConditionSeverity)
    (message : String) : ByoHost :=
  { h with condition := some ⟨false, reason, severity, message⟩ }

/-- `conditions.MarkTrue`: overwrite the condition with status `true`
(no reason, severity or message). -/
def markTrue (h : ByoHost) : ByoHost :=
  { h with condition := some ⟨true, "", ConditionSeverity.info, ""⟩ }

/-- The condition value written by `conditions.MarkFalse` with an empty
message. -/
def falseCond (reason : String) (severity : ConditionSeverity) : Condition :=
  ⟨false, reason, severity, ""⟩

/-- `conditions.IsTrue`: the condition exists and its status is true. -/
def isTrue (h : ByoHost) : Bool :=
  match h.condition with
  | some c => c.status
  | none => false

/-- Outcome of the kube-vip address release (the `vip.NewConfig` +
`network.DeleteIP` pair): `notConfigured` is `vip.NewConfig` failing
(no such config — the code skips `DeleteIP` and continues), `err` is
`network.DeleteIP` failing. -/
inductive ReleaseResult where
  | ok
  | notConfigured (e : String)
  | err (e : String)
deriving DecidableEq, Repr

/-- External calls the engine can perform, recorded as a trace. -/
inductive ExtCall where
  | runCmd (cmd : String)
  | removeSentinel
  | release (ip : String) (iface : String)
  | getSecret (name ns : String)
  | execBootstrap (script : String)
  | patch (h : ByoHost)
deriving DecidableEq, Repr

/-- Oracle outcomes of all external collaborators for one invocation. -/
structure Env where
  /-- `CmdRunner.RunCmd "kubeadm reset --force"`: `some e` = failure. -/
  resetErr : Option String
  /-- `os.Stat(bootstrapSentinelFile)` reports the file present. -/
  sentinelExists : Bool
  /-- `os.Remove(bootstrapSentinelFile)`: `some e` = failure. -/
  sentinelRemoveErr : Option String
  /-- `registration.LocalHostRegistrar.ByoHostInfo.DefaultNetworkName`. -/
  networkName : String
  /-- kube-vip release outcome for a given address. -/
  release : String → ReleaseResult
  /-- `Client.Get` of the secret by name and namespace: its `Data` map. -/
  secretData : String → String → Except String (List (String × String))
  /-- `ScriptExecutor.Execute` outcome for a given script: `some e` = failure. -/
  scriptErr : String → Option String
  /-- `helper.Patch` outcome: `some e` = failure. -/
  patchErr : Option String

/-- `resetNode`: run the kubeadm reset command, wrapping a failure. -/
def resetNode (env : Env) : Except String Unit × List ExtCall :=
  match env.resetErr with
  | some e => (Except.error ("failed to exec kubeadm reset: " ++ e),
               [ExtCall.runCmd KubeadmResetCommand])
  | none => (Except.ok (), [ExtCall.runCmd KubeadmResetCommand])

/-- `getBootstrapScript`: fetch the secret and read `Data["value"]`
(a missing key yields the empty string, as `string(nil)` does in Go). -/
def getBootstrapScript (env : Env) (dataSecretName ns : String) :
    Except String String × List ExtCall :=
  match env.secretData dataSecretName ns with
  | Except.error e => (Except.error e, [ExtCall.getSecret dataSecretName ns])
  | Except.ok data =>
      (Except.ok ((lookupKey data "value").getD ""), [ExtCall.getSecret dataSecretName ns])

/-- `bootstrapK8sNode`: run the cloud-init script executor on the script. -/
def bootstrapK8sNode (env : Env) (bootstrapScript : String) :
    Except String Unit × List ExtCall :=
  match env.scriptErr bootstrapScript with
  | some e => (Except.error e, [ExtCall.execBootstrap bootstrapScript])
  | none => (Except.ok (), [ExtCall.execBootstrap bootstrapScript])

/-- The tail of `hostCleanUp` after all external operations succeeded:
clear `Status.MachineRef`, drop the cluster-name label and the three
annotations, and mark the condition false with reason `NodeAbsent`. -/
def finishCleanup (byoHost : ByoHost) (calls : List ExtCall) :
    Except String Unit × ByoHost × List ExtCall :=
  let cleared : ByoHost :=
    { byoHost with
      machineRef := none
      labels := deleteKey byoHost.labels ClusterLabelName
      annotations :=
        deleteKey (deleteKey (deleteKey byoHost.annotations EndPointIPAnnotation)
          HostCleanupAnnotation) ClusterVersionAnnotation }
  (Except.ok (), markFalse cleared K8sNodeAbsentReason ConditionSeverity.info "", calls)

/-- The sentinel-file step of `hostCleanUp`: if the file exists, remove
it, wrapping a removal failure; absence is not an error. -/
def sentinelStep (env : Env) : Except String Unit × List ExtCall :=
  if env.sentinelExists then
    match env.sentinelRemoveErr with
    | some e =>
        (Except.error ("failed to delete sentinel file " ++ bootstrapSentinelFile ++ ": " ++ e),
         [ExtCall.removeSentinel])
    | none => (Except.ok (), [ExtCall.removeSentinel])
  else
    (Except.ok (), [])

/-- `hostCleanUp`: reset the node, remove the sentinel file, release the
annotated address if present (tolerating `notConfigured`), then clear
the claim-related fields and mark the condition `NodeAbsent`. -/
def hostCleanUp (env : Env) (byoHost : ByoHost) :
    Except String Unit × ByoHost × List ExtCall :=
  match resetNode env with
  | (Except.error e, calls) => (Except.error e, byoHost, calls)
  | (Except.ok _, calls0) =>
    match sentinelStep env with
    | (Except.error e, calls) => (Except.error e, byoHost, calls0 ++ calls)
    | (Except.ok _, calls1) =>
      match lookupKey byoHost.annotations EndPointIPAnnotation with
      | some ip =>
        let calls2 := calls0 ++ calls1 ++ [ExtCall.release ip env.networkName]
        match env.release ip with
        | ReleaseResult.err e => (Except.error e, byoHost, calls2)
        | _ => finishCleanup byoHost calls2
      | none => finishCleanup byoHost (calls0 ++ calls1)

/-- `reconcileNormal`: the claim/bootstrap ladder. -/
def reconcileNormal (env : Env) (byoHost : ByoHost) :
    Except String Unit × ByoHost × List ExtCall :=
  match byoHost.machineRef with
  | none =>
      (Except.ok (),
       markFalse byoHost WaitingForMachineRefReason ConditionSeverity.info "", [])
  | some _ =>
    match byoHost.bootstrapSecret with
    | none =>
        (Except.ok (),
         markFalse byoHost BootstrapDataSecretUnavailableReason ConditionSeverity.info "", [])
    | some secret =>
      if isTrue byoHost then
        (Except.ok (), byoHost, [])
      else
        match getBootstrapScript env secret.name secret.ns with
        | (Except.error e, calls) => (Except.error e, byoHost, calls)
        | (Except.ok script, calls0) =>
          match bootstrapK8sNode env script with
          | (Except.error e, calls1) =>
            let (_, resetCalls) := resetNode env
            (Except.error e,
             markFalse byoHost CloudInitExecutionFailedReason ConditionSeverity.error "",
             calls0 ++ calls1 ++ resetCalls)
          | (Except.ok _, calls1) =>
            (Except.ok (), markTrue byoHost, calls0 ++ calls1)

/-- `reconcileDelete`: the deletion branch is a no-op. -/
def reconcileDelete (byoHost : ByoHost) :
    Except String Unit × ByoHost × List ExtCall :=
  (Except.ok (), byoHost, [])

/-- Which of the three branches of `Reconcile` runs, derived from the
resource snapshot. -/
inductive Branch where
  | cleanup
  | deletion
  | normal
deriving DecidableEq, Repr

/-- The branch `Reconcile` selects: cleanup marker first, then deletion,
then the claim/bootstrap ladder. -/
def selectedBranch (byoHost : ByoHost) : Branch :=
  if (lookupKey byoHost.annotations HostCleanupAnnotation).isSome then Branch.cleanup
  else if byoHost.deletionTimestamp then Branch.deletion
  else Branch.normal

/-- The branch dispatch inside `Reconcile` (the code between the patch
helper setup and the deferred patch). -/
def reconcileBranch (env : Env) (byoHost : ByoHost) :
    Except String Unit × ByoHost × List ExtCall :=
  if (lookupKey byoHost.annotations HostCleanupAnnotation).isSome then
    hostCleanUp env byoHost
  else if byoHost.deletionTimestamp then
    reconcileDelete byoHost
  else
    reconcileNormal env byoHost

deriving instance DecidableEq for Except

/-- Result of one `Reconcile` invocation: the returned error, the host
value handed to `helper.Patch` (none when the initial `Client.Get`
failed and no patch happened), and the external-call trace. -/
structure ReconcileOutcome where
  result : Except String Unit
  patchArg : Option ByoHost
  calls : List ExtCall
deriving DecidableEq, Repr

/-- `Reconcile`: fetch the host, dispatch to one branch, and let the
deferred `helper.Patch` run; a patch failure replaces the returned error
only when the branch returned none (`reterr == nil`). -/
def Reconcile (env : Env) (fetched : Except String ByoHost) : ReconcileOutcome :=
  match fetched with
  | Except.error e => ⟨Except.error e, none, []⟩
  | Except.ok byoHost =>
    match reconcileBranch env byoHost with
    | (res, host1, calls) =>
      let finalRes : Except String Unit :=
        match env.patchErr, res with
        | some pe, Except.ok _ => Except.error pe
        | _, _ => res
      ⟨finalRes, some host1, calls ++ [ExtCall.patch host1]⟩

/-- `true` iff the call is an address release. -/
def isRelease : ExtCall → Bool
  | ExtCall.release _ _ => true
  | _ => false

/-- `true` iff the call is a patch write. -/
def isPatch : ExtCall → Bool
  | ExtCall.patch _ => true
  | _ => false

/-- `true` iff the call is the node-reset command. -/
def isReset : ExtCall → Bool
  | ExtCall.runCmd cmd => cmd = KubeadmResetCommand
  | _ => false

/-- Number of node-reset invocations in a trace. -/
def resetCount (calls : List ExtCall) : Nat :=
  (calls.filter isReset).length

/-- The sentinel step of cleanup succeeded for this environment. -/
def sentinelOk (env : Env) : Prop :=
  (sentinelStep env).1 = Except.ok ()

/-- An environment in which every external operation succeeds. -/
def quietEnv : Env :=
  { resetErr := none
    sentinelExists := false
    sentinelRemoveErr := none
    networkName := "eth0"
    release := fun _ => ReleaseResult.ok
    secretData := fun _ _ => Except.ok [("value", "runcmd: kubeadm join")]
    scriptErr := fun _ => none
    patchErr := none }

/-- `quietEnv` with the kubeadm reset command failing. -/
def failingResetEnv : Env :=
  { quietEnv with resetErr := some "boom" }

/-- `quietEnv` with the bootstrap script failing and the final patch
also failing. -/
def scriptAndPatchFailEnv : Env :=
  { quietEnv with
    scriptErr := fun _ => some "script boom"
    patchErr := some "patch boom" }

/-- `quietEnv` with the bootstrap script failing and reset failing too. -/
def scriptAndResetFailEnv : Env :=
  { quietEnv with
    scriptErr := fun _ => some "script boom"
    resetErr := some "reset boom" }

/-- `quietEnv` whose secret has no `value` key. -/
def emptySecretEnv : Env :=
  { quietEnv with secretData := fun _ _ => Except.ok [("other", "x")] }

/-- `quietEnv` whose address release reports no such config. -/
def notConfiguredEnv : Env :=
  { quietEnv with release := fun _ => ReleaseResult.notConfigured "no config" }

/-- `quietEnv` whose address release fails hard. -/
def releaseFailEnv : Env :=
  { quietEnv with release := fun _ => ReleaseResult.err "release boom" }

/-- A host with no claim at all. -/
def unclaimedHost : ByoHost :=
  { machineRef := none
    bootstrapSecret := none
    labels := []
    annotations := []
    deletionTimestamp := false
    condition := none }

/-- A claimed host whose bootstrap secret is not yet set. -/
def awaitingSecretHost : ByoHost :=
  { unclaimedHost with machineRef := some "machine-a" }

/-- A claimed host with a bootstrap secret, not yet bootstrapped. -/
def claimedHost : ByoHost :=
  { unclaimedHost with
    machineRef := some "machine-a"
    bootstrapSecret := some ⟨"secret-a", "default"⟩ }

/-- A claimed host whose bootstrap already succeeded. -/
def bootstrappedHost : ByoHost :=
  { claimedHost with condition := some ⟨true, "", ConditionSeverity.info, ""⟩ }

/-- A host with the success condition true but no claim: the input on
which re-reconciliation is not a no-op. -/
def bootstrappedUnclaimedHost : ByoHost :=
  { unclaimedHost with condition := some ⟨true, "", ConditionSeverity.info, ""⟩ }

/-- The cleanup scenario of the spec: cleanup marker set, address
annotation `10.0.0.5`, cluster label `demo`. -/
def cleanupScenarioHost : ByoHost :=
  { machineRef := some "machine-a"
    bootstrapSecret := some ⟨"secret-a", "default"⟩
    labels := [(ClusterLabelName, "demo")]
    annotations :=
      [( EndPointIPAnnotation, "10.0.0.5"),
       ( HostCleanupAnnotation, ""),
       ( ClusterVersionAnnotation, "v1.22.0")]
    deletionTimestamp := false
    condition := some ⟨true, "", ConditionSeverity.info, ""⟩ }

/-- `cleanupScenarioHost` without the address annotation. -/
def cleanupNoAddressHost : ByoHost :=
  { cleanupScenarioHost with
    annotations := [( HostCleanupAnnotation, "")] }

/-- The host value produced by the field-clearing tail of `hostCleanUp`
(`finishCleanup` is definitionally `(ok, clearedHost h, calls)`). -/
def clearedHost (h : ByoHost) : ByoHost :=
  markFalse
    { h with
      machineRef := none
      labels := deleteKey h.labels ClusterLabelName
      annotations :=
        deleteKey (deleteKey (deleteKey h.annotations EndPointIPAnnotation)
          HostCleanupAnnotation) ClusterVersionAnnotation }
    K8sNodeAbsentReason ConditionSeverity.info ""

theorem deleteKey_cons (kv : String × String) (rest : List (String × String))
    (k : String) :
    deleteKey (kv :: rest) k =
      if kv.1 = k then deleteKey rest k else kv :: deleteKey rest k := by
  by_cases hk : kv.1 = k <;> simp [deleteKey, hk]

theorem lookupKey_deleteKey_self (m : List (String × String)) (k : String) :
    lookupKey (deleteKey m k) k = none := by
  induction m with
  | nil => rfl
  | cons kv rest ih =>
    rw [deleteKey_cons]
    by_cases hk : kv.1 = k
    · rw [if_pos hk]
      exact ih
    · rw [if_neg hk]
      simpa [lookupKey, hk] using ih

theorem lookupKey_deleteKey_other (m : List (String × String)) (k k' : String)
    (h : k' ≠ k) : lookupKey (deleteKey m k) k' = lookupKey m k' := by
  induction m with
  | nil => rfl
  | cons kv rest ih =>
    rw [deleteKey_cons]
    by_cases hk : kv.1 = k
    · have hne : kv.1 ≠ k' := fun hc => h (hc.symm.trans hk)
      rw [if_pos hk, ih]
      simp [lookupKey, hne]
    · rw [if_neg hk]
      simp only [lookupKey]
      by_cases hk' : kv.1 = k' <;> simp [hk', ih]

/-- C3: if the reset operation fails during cleanup, `hostCleanUp`
aborts with the wrapped reset error before any field mutation: the host
(claimRef, labels, annotations, condition) is returned unchanged and
the only external call performed is the reset command. -/
theorem cleanup_reset_failure_aborts (env : Env) (h : ByoHost) (e : String)
    (hres : env.resetErr = some e) :
    hostCleanUp env h =
      (Except.error ("failed to exec kubeadm reset: " ++ e), h,
       [ExtCall.runCmd KubeadmResetCommand]) := by
  simp [hostCleanUp, resetNode, hres]

/-- Witness for C3 at a concrete failing-reset environment and host. -/
theorem cleanup_reset_failure_aborts_witness :
    hostCleanUp failingResetEnv cleanupScenarioHost =
      (Except.error ("failed to exec kubeadm reset: " ++ "boom"), cleanupScenarioHost,
       [ExtCall.runCmd KubeadmResetCommand]) :=
  cleanup_reset_failure_aborts failingResetEnv cleanupScenarioHost "boom" rfl

/-- C4: per invocation exactly one branch runs, in the precedence order
cleanup marker, then deletion, then the claim/bootstrap ladder
(`selectedBranch` characterises which, and `reconcileBranch` dispatches
on it), and the deletion branch is a no-op returning success with no
external calls and no mutation. -/
theorem reconcile_branch_precedence (env : Env) (h : ByoHost) :
    (selectedBranch h = Branch.cleanup ↔
      (lookupKey h.annotations HostCleanupAnnotation).isSome = true) ∧
    (selectedBranch h = Branch.deletion ↔
      ((lookupKey h.annotations HostCleanupAnnotation).isSome = false ∧
        h.deletionTimestamp = true)) ∧
    (selectedBranch h = Branch.normal ↔
      ((lookupKey h.annotations HostCleanupAnnotation).isSome = false ∧
        h.deletionTimestamp = false)) ∧
    reconcileBranch env h =
      (match selectedBranch h with
       | Branch.cleanup => hostCleanUp env h
       | Branch.deletion => reconcileDelete h
       | Branch.normal => reconcileNormal env h) ∧
    reconcileDelete h = (Except.ok (), h, []) := by
  by_cases hmark : (lookupKey h.annotations HostCleanupAnnotation).isSome = true
  · simp [selectedBranch, reconcileBranch, reconcileDelete, hmark]
  · cases hdel : h.deletionTimestamp <;>
      simp [selectedBranch, reconcileBranch, reconcileDelete, hmark, hdel]

/-- C8: with claimRef unset, reconciliation changes only the condition
(to false, reason `WaitingForClaim`, severity Info) and performs no
external call; with claimRef set and bootstrapSecretRef unset, likewise
with reason `WaitingForBootstrapSecret`; both transitions are idempotent
under repeated invocation. -/
theorem waiting_reasons_idempotent (env : Env) (h : ByoHost) :
    (h.machineRef = none →
      reconcileNormal env h =
        (Except.ok (),
         { h with condition :=
                      some (falseCond WaitingForMachineRefReason ConditionSeverity.info) },
         [])) ∧
    (∀ m, h.machineRef = some m → h.bootstrapSecret = none →
      reconcileNormal env h =
        (Except.ok (),
         { h with condition :=
                      some (falseCond BootstrapDataSecretUnavailableReason ConditionSeverity.info) },
         [])) ∧
    (h.machineRef = none →
      (reconcileNormal env (reconcileNormal env h).2.1).2.1 =
        (reconcileNormal env h).2.1) ∧
    (∀ m, h.machineRef = some m → h.bootstrapSecret = none →
      (reconcileNormal env (reconcileNormal env h).2.1).2.1 =
        (reconcileNormal env h).2.1) := by
  refine ⟨fun hm => ?_, fun m hm hs => ?_, fun hm => ?_, fun m hm hs => ?_⟩
  · simp [reconcileNormal, hm, markFalse, falseCond]
  · simp [reconcileNormal, hm, hs, markFalse, falseCond]
  · simp [reconcileNormal, hm, markFalse]
  · simp [reconcileNormal, hm, hs, markFalse]

theorem finishCleanup_eq (h : ByoHost) (calls : List ExtCall) :
    finishCleanup h calls = (Except.ok (), clearedHost h, calls) := rfl

theorem sentinelStep_calls (env : Env) :
    (sentinelStep env).2 = [] ∨ (sentinelStep env).2 = [ExtCall.removeSentinel] := by
  unfold sentinelStep
  cases env.sentinelExists with
  | false => simp
  | true => cases env.sentinelRemoveErr <;> simp

theorem clearedHost_fields (h : ByoHost) :
    (clearedHost h).machineRef = none ∧
    lookupKey (clearedHost h).labels ClusterLabelName = none ∧
    lookupKey (clearedHost h).annotations EndPointIPAnnotation = none ∧
    lookupKey (clearedHost h).annotations HostCleanupAnnotation = none ∧
    lookupKey (clearedHost h).annotations ClusterVersionAnnotation = none ∧
    (clearedHost h).condition = some (falseCond K8sNodeAbsentReason ConditionSeverity.info) := by
  refine ⟨rfl, lookupKey_deleteKey_self _ _, ?_, ?_, lookupKey_deleteKey_self _ _, rfl⟩
  · show lookupKey
      (deleteKey (deleteKey (deleteKey h.annotations EndPointIPAnnotation)
        HostCleanupAnnotation) ClusterVersionAnnotation) EndPointIPAnnotation = none
    rw [lookupKey_deleteKey_other _ _ _ (by decide),
      lookupKey_deleteKey_other _ _ _ (by decide)]
    exact lookupKey_deleteKey_self _ _
  · show lookupKey
      (deleteKey (deleteKey (deleteKey h.annotations EndPointIPAnnotation)
        HostCleanupAnnotation) ClusterVersionAnnotation) HostCleanupAnnotation = none
    rw [lookupKey_deleteKey_other _ _ _ (by decide)]
    exact lookupKey_deleteKey_self _ _

/-- Inversion of a successful `hostCleanUp`: the returned host is
`clearedHost`, the reset ran exactly once, and the release ran exactly
once with the annotated address (never, when no address is annotated). -/
theorem hostCleanUp_ok (env : Env) (h : ByoHost) (h' : ByoHost) (calls : List ExtCall)
    (hrun : hostCleanUp env h = (Except.ok (), h', calls)) :
    h' = clearedHost h ∧
    resetCount calls = 1 ∧
    (∀ ip, lookupKey h.annotations EndPointIPAnnotation = some ip →
      calls.filter isRelease = [ExtCall.release ip env.networkName]) ∧
    (lookupKey h.annotations EndPointIPAnnotation = none →
      calls.filter isRelease = []) := by
  cases hre : env.resetErr with
  | some e => simp [hostCleanUp, resetNode, hre] at hrun
  | none =>
    rcases hsp : sentinelStep env with ⟨sres, scalls⟩
    have hsc : scalls = [] ∨ scalls = [ExtCall.removeSentinel] := by
      have hall := sentinelStep_calls env
      rw [hsp] at hall
      exact hall
    cases sres with
    | error e => simp [hostCleanUp, resetNode, hre, hsp] at hrun
    | ok u =>
      rcases hsc with hsc | hsc <;> subst hsc <;>
        [cases hip : lookupKey h.annotations EndPointIPAnnotation;
         cases hip : lookupKey h.annotations EndPointIPAnnotation]
      case none =>
        simp [hostCleanUp, resetNode, hre, hsp, hip, finishCleanup_eq] at hrun
        rcases hrun with ⟨hh, hc⟩
        subst hh hc
        simp [resetCount, List.filter, isReset, isRelease, hip, KubeadmResetCommand]
      case some ip =>
        cases hrel : env.release ip with
        | err e =>
          simp [hostCleanUp, resetNode, hre, hsp, hip, hrel] at hrun
        | ok =>
          simp [hostCleanUp, resetNode, hre, hsp, hip, hrel, finishCleanup_eq] at hrun
          rcases hrun with ⟨hh, hc⟩
          subst hh hc
          simp [resetCount, List.filter, isReset, isRelease, hip, KubeadmResetCommand]
        | notConfigured e =>
          simp [hostCleanUp, resetNode, hre, hsp, hip, hrel, finishCleanup_eq] at hrun
          rcases hrun with ⟨hh, hc⟩
          subst hh hc
          simp [resetCount, List.filter, isReset, isRelease, hip, KubeadmResetCommand]
      case none =>
        simp [hostCleanUp, resetNode, hre, hsp, hip, finishCleanup_eq] at hrun
        rcases hrun with ⟨hh, hc⟩
        subst hh hc
        simp [resetCount, List.filter, isReset, isRelease, hip, KubeadmResetCommand]
      case some ip =>
        cases hrel : env.release ip with
        | err e =>
          simp [hostCleanUp, resetNode, hre, hsp, hip, hrel] at hrun
        | ok =>
          simp [hostCleanUp, resetNode, hre, hsp, hip, hrel, finishCleanup_eq] at hrun
          rcases hrun with ⟨hh, hc⟩
          subst hh hc
          simp [resetCount, List.filter, isReset, isRelease, hip, KubeadmResetCommand]
        | notConfigured e =>
          simp [hostCleanUp, resetNode, hre, hsp, hip, hrel, finishCleanup_eq] at hrun
          rcases hrun with ⟨hh, hc⟩
          subst hh hc
          simp [resetCount, List.filter, isReset, isRelease, hip, KubeadmResetCommand]

/-- Witness for C8 on a concrete unclaimed host. -/
theorem waiting_reasons_idempotent_witness :
    reconcileNormal quietEnv unclaimedHost =
      (Except.ok (),
       { unclaimedHost with condition :=
                                some (falseCond WaitingForMachineRefReason ConditionSeverity.info) },
       []) :=
  (waiting_reasons_idempotent quietEnv unclaimedHost).1 rfl

/-- C1: for a host whose cleanup marker annotation is present, a
successful `hostCleanUp` clears `Status.MachineRef`, removes the
cluster-name label and the address, cleanup-marker and cluster-version
annotations, all in the one host value handed to the single patch,
invokes the reset exactly once, invokes the address release exactly once
with the annotated address when that annotation is present, and sets the
condition false with reason `NodeAbsent`. -/
theorem cleanup_success_clears_all (env : Env) (h : ByoHost) (h' : ByoHost)
    (calls : List ExtCall)
    (hmark : (lookupKey h.annotations HostCleanupAnnotation).isSome = true)
    (hrun : hostCleanUp env h = (Except.ok (), h', calls)) :
    h'.machineRef = none ∧
    lookupKey h'.labels ClusterLabelName = none ∧
    lookupKey h'.annotations EndPointIPAnnotation = none ∧
    lookupKey h'.annotations HostCleanupAnnotation = none ∧
    lookupKey h'.annotations ClusterVersionAnnotation = none ∧
    h'.condition = some (falseCond K8sNodeAbsentReason ConditionSeverity.info) ∧
    resetCount calls = 1 ∧
    (∀ ip, lookupKey h.annotations EndPointIPAnnotation = some ip →
      calls.filter isRelease = [ExtCall.release ip env.networkName]) ∧
    (Reconcile env (Except.ok h)).patchArg = some h' := by
  obtain ⟨hh, hreset, hrel, -⟩ := hostCleanUp_ok env h h' calls hrun
  subst hh
  obtain ⟨f1, f2, f3, f4, f5, f6⟩ := clearedHost_fields h
  refine ⟨f1, f2, f3, f4, f5, f6, hreset, hrel, ?_⟩
  simp [Reconcile, reconcileBranch, hmark, hrun]

/-- Witness for C1: the spec's cleanup scenario (marker set, address
annotation `10.0.0.5`, cluster label `demo`) in the all-success
environment. -/
theorem cleanup_success_clears_all_witness :
    ((hostCleanUp quietEnv cleanupScenarioHost).2.1.machineRef = none ∧
      lookupKey (hostCleanUp quietEnv cleanupScenarioHost).2.1.labels
        ClusterLabelName = none ∧
      lookupKey (hostCleanUp quietEnv cleanupScenarioHost).2.1.annotations
        EndPointIPAnnotation = none ∧
      lookupKey (hostCleanUp quietEnv cleanupScenarioHost).2.1.annotations
        HostCleanupAnnotation = none ∧
      lookupKey (hostCleanUp quietEnv cleanupScenarioHost).2.1.annotations
        ClusterVersionAnnotation = none ∧
      (hostCleanUp quietEnv cleanupScenarioHost).2.1.condition =
        some (falseCond K8sNodeAbsentReason ConditionSeverity.info) ∧
      resetCount (hostCleanUp quietEnv cleanupScenarioHost).2.2 = 1 ∧
      (∀ ip,
        lookupKey cleanupScenarioHost.annotations EndPointIPAnnotation = some ip →
        (hostCleanUp quietEnv cleanupScenarioHost).2.2.filter isRelease =
          [ExtCall.release ip quietEnv.networkName]) ∧
      (Reconcile quietEnv (Except.ok cleanupScenarioHost)).patchArg =
        some (hostCleanUp quietEnv cleanupScenarioHost).2.1) :=
  cleanup_success_clears_all quietEnv cleanupScenarioHost
    (hostCleanUp quietEnv cleanupScenarioHost).2.1
    (hostCleanUp quietEnv cleanupScenarioHost).2.2 (by decide) (by decide)

/-- C9: when the bootstrap secret exists but its data has no `value`
key, `getBootstrapScript` returns the empty string with no error, and
the engine goes on to execute the empty bootstrap script. -/
theorem missing_value_key_empty_script (env : Env) (byoHost : ByoHost)
    (secret : SecretRef) (data : List (String × String)) (m : String)
    (hfetch : env.secretData secret.name secret.ns = Except.ok data)
    (hnokey : lookupKey data "value" = none)
    (hm : byoHost.machineRef = some m)
    (hs : byoHost.bootstrapSecret = some secret)
    (hnt : isTrue byoHost = false) :
    getBootstrapScript env secret.name secret.ns =
      (Except.ok "", [ExtCall.getSecret secret.name secret.ns]) ∧
    ExtCall.execBootstrap "" ∈ (reconcileNormal env byoHost).2.2 := by
  have hscript : getBootstrapScript env secret.name secret.ns =
      (Except.ok "", [ExtCall.getSecret secret.name secret.ns]) := by
    simp [getBootstrapScript, hfetch, hnokey]
  refine ⟨hscript, ?_⟩
  cases hre : env.resetErr <;>
    cases hrun : env.scriptErr "" <;>
      simp [reconcileNormal, hm, hs, hnt, hscript, bootstrapK8sNode, hrun,
        resetNode, hre]

/-- Witness for C9: a secret whose data holds only an `other` key. -/
theorem missing_value_key_empty_script_witness :
    getBootstrapScript emptySecretEnv "secret-a" "default" =
      (Except.ok "", [ExtCall.getSecret "secret-a" "default"]) ∧
    ExtCall.execBootstrap "" ∈ (reconcileNormal emptySecretEnv claimedHost).2.2 :=
  missing_value_key_empty_script emptySecretEnv claimedHost ⟨"secret-a", "default"⟩
    [("other", "x")] "machine-a" rfl rfl rfl rfl rfl

/-- C2: in the Bootstrapping state, a script-execution failure makes
the engine run the reset exactly once, mark the condition false with
reason `BootstrapExecutionFailed` and severity Error, and return the
original script error — whatever the reset's own outcome is (the
environment, including `resetErr`, is universally quantified). -/
theorem bootstrap_failure_original_error (env : Env) (byoHost : ByoHost)
    (secret : SecretRef) (data : List (String × String)) (m script e : String)
    (hm : byoHost.machineRef = some m)
    (hs : byoHost.bootstrapSecret = some secret)
    (hnt : isTrue byoHost = false)
    (hfetch : env.secretData secret.name secret.ns = Except.ok data)
    (hval : (lookupKey data "value").getD "" = script)
    (hfail : env.scriptErr script = some e) :
    (reconcileNormal env byoHost).1 = Except.error e ∧
    (reconcileNormal env byoHost).2.1 =
      { byoHost with condition :=
                       some (falseCond CloudInitExecutionFailedReason ConditionSeverity.error) } ∧
    resetCount (reconcileNormal env byoHost).2.2 = 1 := by
  have hscript : getBootstrapScript env secret.name secret.ns =
      (Except.ok script, [ExtCall.getSecret secret.name secret.ns]) := by
    simp [getBootstrapScript, hfetch, hval]
  cases hre : env.resetErr <;>
    simp [reconcileNormal, hm, hs, hnt, hscript, bootstrapK8sNode, hfail,
      resetNode, hre, markFalse, falseCond, resetCount, List.filter, isReset,
      KubeadmResetCommand]

/-- Witness for C2 in an environment where the reset fails too: the
returned error is still the script error. -/
theorem bootstrap_failure_original_error_witness :
    (reconcileNormal scriptAndResetFailEnv claimedHost).1 =
      Except.error "script boom" ∧
    (reconcileNormal scriptAndResetFailEnv claimedHost).2.1 =
      { claimedHost with condition :=
                           some (falseCond CloudInitExecutionFailedReason ConditionSeverity.error) } ∧
    resetCount (reconcileNormal scriptAndResetFailEnv claimedHost).2.2 = 1 :=
  bootstrap_failure_original_error scriptAndResetFailEnv claimedHost
    ⟨"secret-a", "default"⟩ [("value", "runcmd: kubeadm join")] "machine-a"
    "runcmd: kubeadm join" "script boom" rfl rfl rfl rfl rfl rfl

/-- C5 counterexample: a host whose success condition is already true
but whose claimRef is unset (no cleanup marker, no deletion) is not
left unchanged — reconciliation overwrites the true condition with
reason `WaitingForClaim`. -/
theorem bootstrapped_unclaimed_still_mutated :
    isTrue bootstrappedUnclaimedHost = true ∧
    lookupKey bootstrappedUnclaimedHost.annotations HostCleanupAnnotation = none ∧
    bootstrappedUnclaimedHost.deletionTimestamp = false ∧
    (reconcileNormal quietEnv bootstrappedUnclaimedHost).2.1 ≠
      bootstrappedUnclaimedHost := by
  decide

/-- C5 amended: for a host with claimRef and bootstrapSecretRef present
whose success condition is already true (no cleanup marker, no
deletion), reconciliation performs zero external calls and leaves the
host unchanged. -/
theorem bootstrapped_terminal_noop (env : Env) (byoHost : ByoHost)
    (secret : SecretRef) (m : String)
    (hmark : lookupKey byoHost.annotations HostCleanupAnnotation = none)
    (hdel : byoHost.deletionTimestamp = false)
    (hm : byoHost.machineRef = some m)
    (hs : byoHost.bootstrapSecret = some secret)
    (ht : isTrue byoHost = true) :
    reconcileBranch env byoHost = (Except.ok (), byoHost, []) := by
  simp [reconcileBranch, hmark, hdel, reconcileNormal, hm, hs, ht]

/-- Witness for the amended C5 on a concrete bootstrapped host. -/
theorem bootstrapped_terminal_noop_witness :
    reconcileBranch quietEnv bootstrappedHost =
      (Except.ok (), bootstrappedHost, []) :=
  bootstrapped_terminal_noop quietEnv bootstrappedHost ⟨"secret-a", "default"⟩
    "machine-a" rfl rfl rfl rfl rfl

/-- C6: during cleanup (with reset and sentinel steps succeeding), the
address release runs only when the address annotation is present; a
no-such-config outcome is treated as success and cleanup continues,
while any other release failure is propagated and aborts the remaining
steps, leaving the host unmutated. -/
theorem release_only_when_annotated (env : Env) (h : ByoHost)
    (hres : env.resetErr = none)
    (hsen : sentinelOk env) :
    (lookupKey h.annotations EndPointIPAnnotation = none →
      (hostCleanUp env h).1 = Except.ok () ∧
      (hostCleanUp env h).2.2.filter isRelease = []) ∧
    (∀ ip e, lookupKey h.annotations EndPointIPAnnotation = some ip →
      env.release ip = ReleaseResult.notConfigured e →
      (hostCleanUp env h).1 = Except.ok () ∧
      (hostCleanUp env h).2.1 = clearedHost h) ∧
    (∀ ip e, lookupKey h.annotations EndPointIPAnnotation = some ip →
      env.release ip = ReleaseResult.err e →
      (hostCleanUp env h).1 = Except.error e ∧
      (hostCleanUp env h).2.1 = h) := by
  rcases hsp : sentinelStep env with ⟨sres, scalls⟩
  have hsc : scalls = [] ∨ scalls = [ExtCall.removeSentinel] := by
    have hall := sentinelStep_calls env
    rw [hsp] at hall
    exact hall
  cases sres with
  | error e =>
    rw [sentinelOk, hsp] at hsen
    simp at hsen
  | ok u =>
    refine ⟨fun hip => ?_, fun ip e hip hrel => ?_, fun ip e hip hrel => ?_⟩
    · rcases hsc with hsc | hsc <;> subst hsc <;>
        simp [hostCleanUp, resetNode, hres, hsp, hip, finishCleanup_eq,
          List.filter, isRelease]
    · simp [hostCleanUp, resetNode, hres, hsp, hip, hrel, finishCleanup_eq]
    · simp [hostCleanUp, resetNode, hres, hsp, hip, hrel]

/-- Witness for C6: a hard release failure on the spec's cleanup
scenario host aborts cleanup with that error and no mutation. -/
theorem release_only_when_annotated_witness :
    (hostCleanUp releaseFailEnv cleanupScenarioHost).1 =
      Except.error "release boom" ∧
    (hostCleanUp releaseFailEnv cleanupScenarioHost).2.1 = cleanupScenarioHost :=
  (release_only_when_annotated releaseFailEnv cleanupScenarioHost rfl rfl).2.2
    "10.0.0.5" "release boom" (by decide) rfl

theorem hostCleanUp_no_patch (env : Env) (h : ByoHost) :
    (hostCleanUp env h).2.2.filter isPatch = [] := by
  rcases hsp : sentinelStep env with ⟨sres, scalls⟩
  have hsc : scalls = [] ∨ scalls = [ExtCall.removeSentinel] := by
    have hall := sentinelStep_calls env
    rw [hsp] at hall
    exact hall
  cases hre : env.resetErr with
  | some e => simp [hostCleanUp, resetNode, hre, List.filter, isPatch]
  | none =>
    cases sres with
    | error e =>
      rcases hsc with hsc | hsc <;> subst hsc <;>
        simp [hostCleanUp, resetNode, hre, hsp, List.filter, isPatch]
    | ok u =>
      cases hip : lookupKey h.annotations EndPointIPAnnotation with
      | none =>
        rcases hsc with hsc | hsc <;> subst hsc <;>
          simp [hostCleanUp, resetNode, hre, hsp, hip, finishCleanup_eq,
            List.filter, isPatch]
      | some ip =>
        rcases hsc with hsc | hsc <;> subst hsc <;>
          cases hrel : env.release ip <;>
            simp [hostCleanUp, resetNode, hre, hsp, hip, hrel, finishCleanup_eq,
              List.filter, isPatch]

theorem reconcileNormal_no_patch (env : Env) (h : ByoHost) :
    (reconcileNormal env h).2.2.filter isPatch = [] := by
  cases hm : h.machineRef with
  | none => simp [reconcileNormal, hm]
  | some m =>
    cases hs : h.bootstrapSecret with
    | none => simp [reconcileNormal, hm, hs]
    | some secret =>
      cases ht : isTrue h with
      | true => simp [reconcileNormal, hm, hs, ht]
      | false =>
        cases hsec : env.secretData secret.name secret.ns with
        | error e =>
          simp [reconcileNormal, hm, hs, ht, getBootstrapScript, hsec,
            List.filter, isPatch]
        | ok data =>
          cases hrun : env.scriptErr ((lookupKey data "value").getD "") with
          | none =>
            simp [reconcileNormal, hm, hs, ht, getBootstrapScript, hsec,
              bootstrapK8sNode, hrun, List.filter, isPatch]
          | some e =>
            cases hre : env.resetErr <;>
              simp [reconcileNormal, hm, hs, ht, getBootstrapScript, hsec,
                bootstrapK8sNode, hrun, resetNode, hre, List.filter, isPatch]

theorem reconcileBranch_no_patch (env : Env) (h : ByoHost) :
    (reconcileBranch env h).2.2.filter isPatch = [] := by
  unfold reconcileBranch
  by_cases hmark : (lookupKey h.annotations HostCleanupAnnotation).isSome = true
  · rw [if_pos hmark]
    exact hostCleanUp_no_patch env h
  · rw [if_neg hmark]
    cases hdel : h.deletionTimestamp <;>
      simp [hdel, reconcileDelete, reconcileNormal_no_patch]

/-- C7 counterexample: with the script failing and the final patch also
failing, the invocation mutates the in-memory host (the patched value
differs from the fetched one) yet returns the script error, not the
patch error — the persistence failure is not propagated. -/
theorem patch_failure_masked_on_error_path :
    scriptAndPatchFailEnv.patchErr = some "patch boom" ∧
    (Reconcile scriptAndPatchFailEnv (Except.ok claimedHost)).patchArg ≠
      some claimedHost ∧
    (Reconcile scriptAndPatchFailEnv (Except.ok claimedHost)).result =
      Except.error "script boom" ∧
    (Reconcile scriptAndPatchFailEnv (Except.ok claimedHost)).result ≠
      Except.error "patch boom" := by
  decide

/-- C7 amended: every invocation that gets past the fetch hands the
(possibly mutated) host to the patch exactly once, as the last external
call, also on error paths; a patch failure is propagated exactly when
the branch itself returned no error, while a branch error takes
precedence over (and drops) the patch error. -/
theorem patch_once_at_end (env : Env) (h : ByoHost) :
    (Reconcile env (Except.ok h)).patchArg = some (reconcileBranch env h).2.1 ∧
    (Reconcile env (Except.ok h)).calls.filter isPatch =
      [ExtCall.patch (reconcileBranch env h).2.1] ∧
    (Reconcile env (Except.ok h)).calls.getLast? =
      some (ExtCall.patch (reconcileBranch env h).2.1) ∧
    (env.patchErr = none →
      (Reconcile env (Except.ok h)).result = (reconcileBranch env h).1) ∧
    (∀ pe, env.patchErr = some pe → (reconcileBranch env h).1 = Except.ok () →
      (Reconcile env (Except.ok h)).result = Except.error pe) ∧
    (∀ pe e, env.patchErr = some pe → (reconcileBranch env h).1 = Except.error e →
      (Reconcile env (Except.ok h)).result = Except.error e) := by
  rcases hbr : reconcileBranch env h with ⟨res, host1, calls⟩
  have hnp := reconcileBranch_no_patch env h
  rw [hbr] at hnp
  simp only at hnp
  refine ⟨?_, ?_, ?_, ?_, ?_, ?_⟩
  · simp [Reconcile, hbr]
  · simp [Reconcile, hbr, List.filter_append, hnp, List.filter, isPatch]
  · simp [Reconcile, hbr]
  · intro hpe
    cases res <;> simp [Reconcile, hbr, hpe]
  · intro pe hpe hok
    simp at hok
    subst hok
    simp [Reconcile, hbr, hpe]
  · intro pe e hpe herr
    simp at herr
    subst herr
    simp [Reconcile, hbr, hpe]

/-- Witness for the amended C7 in an all-success environment on the
spec's cleanup scenario host. -/
theorem patch_once_at_end_witness :
    (Reconcile quietEnv (Except.ok cleanupScenarioHost)).patchArg =
      some (reconcileBranch quietEnv cleanupScenarioHost).2.1 ∧
    (Reconcile quietEnv (Except.ok cleanupScenarioHost)).calls.filter isPatch =
      [ExtCall.patch (reconcileBranch quietEnv cleanupScenarioHost).2.1] ∧
    (Reconcile quietEnv (Except.ok cleanupScenarioHost)).calls.getLast? =
      some (ExtCall.patch (reconcileBranch quietEnv cleanupScenarioHost).2.1) :=
  ⟨(patch_once_at_end quietEnv cleanupScenarioHost).1,
   (patch_once_at_end quietEnv cleanupScenarioHost).2.1,
   (patch_once_at_end quietEnv cleanupScenarioHost).2.2.1⟩

theorem hostCleanUp_host_cases (env : Env) (h : ByoHost) :
    (hostCleanUp env h).2.1 = h ∨ (hostCleanUp env h).2.1 = clearedHost h := by
  rcases hsp : sentinelStep env with ⟨sres, scalls⟩
  cases hre : env.resetErr with
  | some e => left; simp [hostCleanUp, resetNode, hre]
  | none =>
    cases sres with
    | error e => left; simp [hostCleanUp, resetNode, hre, hsp]
    | ok u =>
      cases hip : lookupKey h.annotations EndPointIPAnnotation with
      | none =>
        right
        simp [hostCleanUp, resetNode, hre, hsp, hip, finishCleanup_eq]
      | some ip =>
        cases hrel : env.release ip with
        | err e => left; simp [hostCleanUp, resetNode, hre, hsp, hip, hrel]
        | ok =>
          right
          simp [hostCleanUp, resetNode, hre, hsp, hip, hrel, finishCleanup_eq]
        | notConfigured e =>
          right
          simp [hostCleanUp, resetNode, hre, hsp, hip, hrel, finishCleanup_eq]

theorem reconcileNormal_condition_cases (env : Env) (h : ByoHost) :
    (reconcileNormal env h).2.1.condition = h.condition ∨
    (reconcileNormal env h).2.1.condition =
      some (falseCond WaitingForMachineRefReason ConditionSeverity.info) ∨
    (reconcileNormal env h).2.1.condition =
      some (falseCond BootstrapDataSecretUnavailableReason ConditionSeverity.info) ∨
    (reconcileNormal env h).2.1.condition =
      some (falseCond CloudInitExecutionFailedReason ConditionSeverity.error) ∨
    (reconcileNormal env h).2.1.condition = some ⟨true, "", ConditionSeverity.info, ""⟩ := by
  cases hm : h.machineRef with
  | none =>
    right; left
    simp [reconcileNormal, hm, markFalse, falseCond]
  | some m =>
    cases hs : h.bootstrapSecret with
    | none =>
      right; right; left
      simp [reconcileNormal, hm, hs, markFalse, falseCond]
    | some secret =>
      cases ht : isTrue h with
      | true =>
        left
        simp [reconcileNormal, hm, hs, ht]
      | false =>
        cases hsec : env.secretData secret.name secret.ns with
        | error e =>
          left
          simp [reconcileNormal, hm, hs, ht, getBootstrapScript, hsec]
        | ok data =>
          cases hrun : env.scriptErr ((lookupKey data "value").getD "") with
          | none =>
            right; right; right; right
            simp [reconcileNormal, hm, hs, ht, getBootstrapScript, hsec,
              bootstrapK8sNode, hrun, markTrue]
          | some e =>
            right; right; right; left
            cases hre : env.resetErr <;>
              simp [reconcileNormal, hm, hs, ht, getBootstrapScript, hsec,
                bootstrapK8sNode, hrun, resetNode, hre, markFalse, falseCond]

theorem reconcileBranch_condition_cases (env : Env) (h : ByoHost) :
    (reconcileBranch env h).2.1.condition = h.condition ∨
    (reconcileBranch env h).2.1.condition =
      some (falseCond WaitingForMachineRefReason ConditionSeverity.info) ∨
    (reconcileBranch env h).2.1.condition =
      some (falseCond BootstrapDataSecretUnavailableReason ConditionSeverity.info) ∨
    (reconcileBranch env h).2.1.condition =
      some (falseCond CloudInitExecutionFailedReason ConditionSeverity.error) ∨
    (reconcileBranch env h).2.1.condition =
      some (falseCond K8sNodeAbsentReason ConditionSeverity.info) ∨
    (reconcileBranch env h).2.1.condition = some ⟨true, "", ConditionSeverity.info, ""⟩ := by
  unfold reconcileBranch
  by_cases hmark : (lookupKey h.annotations HostCleanupAnnotation).isSome = true
  · rw [if_pos hmark]
    rcases hostCleanUp_host_cases env h with hh | hh
    · left
      rw [hh]
    · right; right; right; right; left
      rw [hh]
      rfl
  · rw [if_neg hmark]
    cases hdel : h.deletionTimestamp with
    | true => left; simp [reconcileDelete]
    | false =>
      rcases reconcileNormal_condition_cases env h with hc | hc | hc | hc | hc
      · left; exact hc
      · right; left; exact hc
      · right; right; left; exact hc
      · right; right; right; left; exact hc
      · right; right; right; right; right; exact hc

/-- C10: whenever an invocation overwrites the condition with a false
marking, the message is empty, the reasons `WaitingForClaim`,
`WaitingForBootstrapSecret` and `NodeAbsent` carry severity Info, and
severity Error is carried exactly for reason `BootstrapExecutionFailed`. -/
theorem false_condition_severity (env : Env) (h : ByoHost) (c : Condition)
    (hchanged : (reconcileBranch env h).2.1.condition ≠ h.condition)
    (hc : (reconcileBranch env h).2.1.condition = some c)
    (hfalse : c.status = false) :
    c.message = "" ∧
    ((c.reason = WaitingForMachineRefReason ∨
      c.reason = BootstrapDataSecretUnavailableReason ∨
      c.reason = K8sNodeAbsentReason) → c.severity = ConditionSeverity.info) ∧
    (c.severity = ConditionSeverity.error ↔
      c.reason = CloudInitExecutionFailedReason) := by
  rcases reconcileBranch_condition_cases env h with hcc | hcc | hcc | hcc | hcc | hcc
  · exact absurd hcc hchanged
  all_goals rw [hcc] at hc
  all_goals injection hc with hc
  all_goals subst hc
  · exact ⟨rfl, fun _ => rfl, by decide⟩
  · exact ⟨rfl, fun _ => rfl, by decide⟩
  · exact ⟨rfl, by decide, by decide⟩
  · exact ⟨rfl, fun _ => rfl, by decide⟩
  · exact absurd hfalse (by decide)

/-- Witness for C10: the false marking written for an unclaimed host. -/
theorem false_condition_severity_witness :
    (falseCond WaitingForMachineRefReason ConditionSeverity.info).message = "" ∧
    (((falseCond WaitingForMachineRefReason ConditionSeverity.info).reason =
        WaitingForMachineRefReason ∨
      (falseCond WaitingForMachineRefReason ConditionSeverity.info).reason =
        BootstrapDataSecretUnavailableReason ∨
      (falseCond WaitingForMachineRefReason ConditionSeverity.info).reason =
        K8sNodeAbsentReason) →
      (falseCond WaitingForMachineRefReason ConditionSeverity.info).severity =
        ConditionSeverity.info) ∧
    ((falseCond WaitingForMachineRefReason ConditionSeverity.info).severity =
        ConditionSeverity.error ↔
      (falseCond WaitingForMachineRefReason ConditionSeverity.info).reason =
        CloudInitExecutionFailedReason) :=
  false_condition_severity quietEnv unclaimedHost
    (falseCond WaitingForMachineRefReason ConditionSeverity.info)
    (by decide) (by decide) rfl

end Byoh
